import Mathlib

/-!
Verification development for `orquestator/SimpleReportGenerator.py` of the
`genewise_server` repository.

The Python module drives an LLM-mediated pipeline: query-library helpers parse
oracle responses (`ask_llm_for_determination`, `ask_llm_to_extract_variant`,
`ask_llm_to_extract_list`, `ask_llm_to_simplify`, `ask_llm_for_gene_info`),
an inheritance knowledge base maps pattern names to explanation text and
illustration ids, a resolver computes process variables, and a section
assembler builds the simplified report.

Modelling conventions:
* An oracle (OpenAI) call outcome is an explicit input of type `LLMResult`;
  `call_llm` converts it to the Python function's return value (`none` models
  Python `None` after a caught API exception).
* `json.loads` is an explicit parameter `loads : String → Option PyVal`
  (`none` models a raised `json.JSONDecodeError`).
* Python strings are Lean `String`s; `pyUpper`/`pyLower` model `str.upper` /
  `str.lower` on the alphabet the program manipulates (ASCII plus the accented
  Spanish letters appearing in the source's marker strings).
* A raised Python exception that escapes a modelled function is `Except.error ()`.
-/

/-- Models Python substring containment of a character list: does `needle`
occur contiguously inside the second list? -/
def subListAux (needle : List Char) : List Char → Bool
  | [] => needle.isEmpty
  | c :: t => needle.isPrefixOf (c :: t) || subListAux needle t

/-- Models Python `needle in hay` for strings. -/
def containsSubstr (hay needle : String) : Bool :=
  subListAux needle.toList hay.toList

/-- Models Python `s.startswith (pre)`. -/
def pyStartsWith (s pre : String) : Bool :=
  pre.toList.isPrefixOf s.toList

/-- Models Python `str.upper` on a single character, for the alphabet used by
the program (ASCII letters plus the accented Spanish letters in its markers). -/
def pyUpperChar (c : Char) : Char :=
  if 'a' ≤ c ∧ c ≤ 'z' then Char.ofNat (c.toNat - 32)
  else if c = 'á' then 'Á'
  else if c = 'é' then 'É'
  else if c = 'í' then 'Í'
  else if c = 'ó' then 'Ó'
  else if c = 'ú' then 'Ú'
  else if c = 'ñ' then 'Ñ'
  else c

/-- Models Python `str.lower` on a single character (same alphabet as
`pyUpperChar`). -/
def pyLowerChar (c : Char) : Char :=
  if 'A' ≤ c ∧ c ≤ 'Z' then Char.ofNat (c.toNat + 32)
  else if c = 'Á' then 'á'
  else if c = 'É' then 'é'
  else if c = 'Í' then 'í'
  else if c = 'Ó' then 'ó'
  else if c = 'Ú' then 'ú'
  else if c = 'Ñ' then 'ñ'
  else c

/-- Models Python `s.upper()`. -/
def pyUpper (s : String) : String :=
  String.mk (s.toList.map pyUpperChar)

/-- Models Python `s.lower()`. -/
def pyLower (s : String) : String :=
  String.mk (s.toList.map pyLowerChar)

/-- The characters Python `str.strip()` removes. -/
def isPySpace (c : Char) : Bool :=
  c = ' ' || c = '\t' || c = '\n' || c = '\r' || c = '\x0b' || c = '\x0c'

/-- Models Python `s.strip()`. -/
def pyStrip (s : String) : String :=
  String.mk (((s.toList.dropWhile isPySpace).reverse.dropWhile isPySpace).reverse)

/-- Helper for `strFind`: index of the first occurrence of `c`, or `-1`. -/
def charFindAux (c : Char) : List Char → Int → Int
  | [], _ => -1
  | x :: t, i => if x = c then i else charFindAux c t (i + 1)

/-- Models Python `s.find (c)` for a single-character needle. -/
def strFind (s : String) (c : Char) : Int :=
  charFindAux c s.toList 0

/-- Helper for `strRFind`: index of the last occurrence of `c`, or `best`. -/
def charRFindAux (c : Char) : List Char → Int → Int → Int
  | [], _, best => best
  | x :: t, i, best => charRFindAux c t (i + 1) (if x = c then i else best)

/-- Models Python `s.rfind (c)` for a single-character needle. -/
def strRFind (s : String) (c : Char) : Int :=
  charRFindAux c s.toList 0 (-1)

/-- Models the Python slice `s[a:b]` (with `0 ≤ a`, `0 ≤ b`). -/
def strSlice (s : String) (a b : Nat) : String :=
  String.mk ((s.toList.drop a).take (b - a))

/-- Models `pattern_line.split (':', 1)[-1]`: everything after the first colon,
or the whole string when there is no colon. -/
def afterFirstColon (s : String) : String :=
  let cs := s.toList
  if cs.contains ':' then String.mk ((cs.dropWhile (fun c => !(c = ':'))).drop 1) else s

/-- Python values produced by `json.loads`, as manipulated by the program.
JSON floats are not needed by any modelled code path, so numbers are integers. -/
inductive PyVal where
  | vnone
  | vbool (b : Bool)
  | vnum (n : Int)
  | vstr (s : String)
  | vlist (items : List PyVal)
  | vdict (entries : List (String × PyVal))
deriving Repr

mutual
/-- Models Python `==` between the values above (structural equality; the
program only ever compares extracted field values — strings and `None` in
practice — where this coincides with Python semantics; dict comparison is
entry-by-entry in order, which agrees with Python on equal key layouts). -/
def pyEq : PyVal → PyVal → Bool
  | .vnone, .vnone => true
  | .vbool a, .vbool b => a == b
  | .vnum a, .vnum b => a == b
  | .vstr a, .vstr b => a == b
  | .vlist a, .vlist b => pyEqList a b
  | .vdict a, .vdict b => pyEqEntries a b
  | _, _ => false

/-- Pointwise Python `==` on lists. -/
def pyEqList : List PyVal → List PyVal → Bool
  | [], [] => true
  | a :: as, b :: bs => pyEq a b && pyEqList as bs
  | _, _ => false

/-- Pointwise Python `==` on dict entries. -/
def pyEqEntries : List (String × PyVal) → List (String × PyVal) → Bool
  | [], [] => true
  | (k, a) :: as, (k2, b) :: bs => (k == k2) && pyEq a b && pyEqEntries as bs
  | _, _ => false
end

/-- Models Python truthiness of a value. -/
def truthy : PyVal → Bool
  | .vnone => false
  | .vbool b => b
  | .vnum n => n != 0
  | .vstr s => s ≠ ""
  | .vlist l => !l.isEmpty
  | .vdict e => !e.isEmpty

/-- Models `isinstance (v, dict)`. -/
def isDict : PyVal → Bool
  | .vdict _ => true
  | _ => false

/-- Models `isinstance (v, list)`. -/
def isList : PyVal → Bool
  | .vlist _ => true
  | _ => false

/-- First entry of an association list with the given key (Python dict lookup;
Python dicts have unique keys, so first-match agrees with dict semantics). -/
def dictFindEntry : List (String × PyVal) → String → Option PyVal
  | [], _ => none
  | (k', v) :: t, k => if k' = k then some v else dictFindEntry t k

/-- Models `d.get (k)` on a dict value (returns Python `None` when missing).
The non-dict case is unreachable at every call site (guarded by `isinstance`
checks or by the shape of extraction results). -/
def pyDictGet (v : PyVal) (k : String) : PyVal :=
  match v with
  | .vdict es => (dictFindEntry es k).getD .vnone
  | _ => .vnone

/-- Models `d.get (k, default)` on a dict value. -/
def pyDictGetDefault (v : PyVal) (k : String) (dflt : PyVal) : PyVal :=
  match v with
  | .vdict es => (dictFindEntry es k).getD dflt
  | _ => dflt

/-- Replace-or-append for dict assignment. -/
def setEntries : List (String × PyVal) → String → PyVal → List (String × PyVal)
  | [], k, val => [(k, val)]
  | (k', v') :: t, k, val =>
      if k' = k then (k, val) :: t else (k', v') :: setEntries t k val

/-- Models `d[k] = val` on a dict value (existing key keeps its position, a new
key is appended, as in CPython). -/
def pyDictSet (v : PyVal) (k : String) (val : PyVal) : PyVal :=
  match v with
  | .vdict es => .vdict (setEntries es k val)
  | other => other

/-- Models Python `k in container` for a string `k`. On values where Python
would raise `TypeError` (`None`, booleans, numbers) this returns `false`; at
the single call site the raised exception is caught by a blanket
`except Exception` that returns `None`, which coincides with the result the
`false` branch produces there. -/
def pyContains (container : PyVal) (k : String) : Bool :=
  match container with
  | .vdict entries => entries.any (fun e => e.1 = k)
  | .vlist items => items.any (fun it => pyEq it (.vstr k))
  | .vstr s => containsSubstr s k
  | _ => false

/-- Models `str (v)` as used in f-string interpolation of extracted fields.
The program only ever interpolates scalar field values; the rendering of
compound values is abbreviated and never inspected by any modelled path. -/
def pyStr : PyVal → String
  | .vnone => "None"
  | .vbool true => "True"
  | .vbool false => "False"
  | .vnum n => toString n
  | .vstr s => s
  | .vlist _ => "[...]"
  | .vdict _ => "\x7b...\x7d"

/-- Outcome of one OpenAI chat-completion attempt, before `call_llm`'s own
handling: `fail` models a raised transport/provider exception, `content c`
models a successful response whose message content is `c` (Python `None` when
the API returned null content). -/
inductive LLMResult where
  | fail
  | content (c : Option String)

/-- Embeds `call_llm` (SimpleReportGenerator.py lines 63-86): an API exception
is caught and yields `None`; null content yields `""`; otherwise the stripped
content is returned. -/
def call_llm : LLMResult → Option String
  | .fail => none
  | .content none => some ""
  | .content (some c) => some (pyStrip c)

/-- Embeds the context builder shared by `ask_llm_for_determination` and
`ask_llm_to_extract_variant` (lines 90 and 108): the non-empty section texts,
labelled by id, joined with blank lines. -/
def build_context (section_texts : List (String × String)) : String :=
  String.intercalate "\n\n"
    ((section_texts.filter (fun kv => kv.2 ≠ "")).map
      (fun kv => "Texto de la sección \x27" ++ kv.1 ++ "\x27:\n" ++ kv.2))

/-- Embeds `ask_llm_for_determination` (lines 88-104). Returns the Python pair
`(exists, reason)`: first component `none` models Python `None` (unknown);
second component `none` models a `None` reason (failed `call_llm`). -/
def ask_llm_for_determination (api : LLMResult) (section_texts : List (String × String))
    (question : String) : Option Bool × Option String :=
  let context := build_context section_texts
  if context = "" then (none, some "Sin contexto")
  else
    match call_llm api with
    | none => (none, none)
    | some response =>
      if response ≠ "" then
        if pyStartsWith (pyUpper response) "SÍ" then (some true, some response)
        else if pyStartsWith (pyUpper response) "NO" then (some false, some response)
        else (none, some response)
      else (none, some response)

/-- The five mandatory keys checked by `ask_llm_to_extract_variant`
(line 139). -/
def mandatory_variant_keys : List String :=
  ["Gen", "CDNA", "Proteina", "Genotipo", "Clasificacion"]

/-- Embeds `ask_llm_to_extract_variant` (lines 106-150). `loads` models
`json.loads` (`none` = parse error). Every failure path (no context, failed
call, no brace span, parse error, incomplete dict, empty dict) returns `none`;
the blanket `except` clauses also return `none`. -/
def ask_llm_to_extract_variant (loads : String → Option PyVal) (api : LLMResult)
    (section_texts : List (String × String)) (criteria_description : String) : Option PyVal :=
  let context := build_context section_texts
  if context = "" then none
  else
    match call_llm api with
    | none => none
    | some response =>
      if response = "" then none
      else
        let start_index := strFind response '\x7b'
        let end_index := strRFind response '\x7d' + 1
        if start_index = -1 ∨ end_index = 0 then none
        else
          let json_str := strSlice response start_index.toNat end_index.toNat
          match loads json_str with
          | none => none
          | some details =>
            if truthy details ∧ ¬(mandatory_variant_keys.all (fun k => pyContains details k))
            then none
            else if truthy details then some details else none

/-- Embeds `ask_llm_to_extract_list` (lines 153-204). The second component of
the result records whether the oracle was consulted (the source logs and
returns before the LLM call when the input text is empty). Every failure path
degrades to `[]`. -/
def ask_llm_to_extract_list (loads : String → Option PyVal) (api : LLMResult)
    (section_text : String) (item_description : String) (output_format_keys : List String) :
    List PyVal × Bool :=
  if section_text = "" then ([], false)
  else
    match call_llm api with
    | none => ([], true)
    | some response =>
      if response = "" then ([], true)
      else
        let start_index := strFind response '['
        let end_index := strRFind response ']' + 1
        if start_index = -1 ∨ end_index = 0 then
          -- an empty object instead of a list is interpreted as the empty list;
          -- any other span-less response raises JSONDecodeError, caught to `[]`
          if pyStrip response = "\x7b\x7d" then ([], true) else ([], true)
        else
          let json_str := strSlice response start_index.toNat end_index.toNat
          match loads json_str with
          | none => ([], true)
          | some items =>
            match items with
            | .vlist l => (l, true)
            | _ => ([], true)

/-- Embeds `ask_llm_to_simplify` (lines 207-215). Note the source logs
`result[:100]` before `return result or ""`; when `call_llm` failed with
`None` that slice raises `TypeError`, modelled by `Except.error ()`. -/
def ask_llm_to_simplify (api : LLMResult) (technical_text : String)
    (target_audience : String) : Except Unit String :=
  if technical_text = "" then .ok ""
  else
    match call_llm api with
    | none => .error ()
    | some result => .ok (if result ≠ "" then result else "")

/-- Embeds `ask_llm_for_gene_info` (lines 217-229). The same `result[:100]`
logging slice raises `TypeError` when `call_llm` failed with `None`. -/
def ask_llm_for_gene_info (api : LLMResult) (gene_symbol : String)
    (context_info : String) : Except Unit String :=
  match call_llm api with
  | none => .error ()
  | some result =>
    .ok (if result ≠ "" then result
         else "No se pudo obtener información detallada para el gen " ++ gene_symbol ++ ".")

/-- Explanation text for Autosomal Dominant inheritance (line 243). -/
def ad_explanation_text : String :=
  "Herencia Autosómica Dominante: Normalmente, una sola copia de la variante genética (heredada de uno de los padres, o a veces nueva en el paciente) es suficiente para causar la condición. Cada hijo de una persona afectada tiene un 50% de probabilidad de heredar la variante y la condición."

/-- Explanation text for Autosomal Recessive inheritance (line 247). -/
def ar_explanation_text : String :=
  "Herencia Autosómica Recesiva: Se necesitan dos copias de la variante genética (una heredada de cada padre) para causar la condición. Los padres suelen ser portadores sanos (tienen una sola copia). Cada hijo de dos padres portadores tiene un 25% de probabilidad de tener la condición, un 50% de ser portador sano y un 25% de no tener la variante."

/-- Explanation text for X-linked recessive inheritance (line 251). -/
def xlr_explanation_text : String :=
  "Herencia Ligada al X Recesiva: El gen se encuentra en el cromosoma X. Las mujeres tienen dos cromosomas X, los hombres uno (XY). Las mujeres portadoras de una variante en un X suelen ser sanas o tener síntomas leves. Los hombres con una variante en su único cromosoma X suelen desarrollar la condición. Las mujeres portadoras tienen un 50% de probabilidad de pasar la variante a cada hijo (varón afectado, hija portadora)."

/-- Explanation text for X-linked dominant inheritance (line 255). -/
def xld_explanation_text : String :=
  "Herencia Ligada al X Dominante: El gen se encuentra en el cromosoma X. Una sola copia de la variante es suficiente para causar la condición tanto en hombres como en mujeres (aunque puede ser más severa en hombres). Un hombre afectado pasará la variante a todas sus hijas pero a ninguno de sus hijos. Una mujer afectada tiene un 50% de probabilidad de pasar la variante a cada hijo o hija."

/-- Explanation text for Y-linked inheritance (line 259). -/
def ylinked_explanation_text : String :=
  "Herencia Ligada al Y: El gen se encuentra en el cromosoma Y, que solo tienen los hombres. La condición solo afecta a hombres y se transmite de padres a hijos varones."

/-- Explanation text for mitochondrial inheritance (line 263). -/
def mito_explanation_text : String :=
  "Herencia Mitocondrial: El gen se encuentra en el ADN de las mitocondrias (pequeñas \x27baterías\x27 dentro de nuestras células). Este ADN se hereda casi exclusivamente de la madre. Una madre afectada pasará la variante a todos sus hijos e hijas, pero solo las hijas la transmitirán a la siguiente generación."

/-- Homozygous-specific Autosomal Recessive explanation (lines 270-276). -/
def ar_homozygous_explanation_text : String :=
  "Herencia Autosómica Recesiva (detectada en Homocigosis): Se han detectado dos copias idénticas de la variante genética. Esto suele ocurrir cuando ambos padres son portadores de la misma variante. Para que aparezca la condición asociada, se necesitan ambas copias. Cada hijo de dos padres portadores tiene un 25% de probabilidad de heredar ambas copias y tener la condición."

/-- The `explanations` table of `get_inheritance_explanation_and_image`
(lines 240-267), as the ordered list of `(canonical key, text, image_id)`
triples; the Python dict iterates in this insertion order. -/
def explanations : List (String × String × String) :=
  [ ("autosómica dominante", ad_explanation_text, "AD_image"),
    ("autosómica recesiva", ar_explanation_text, "AR_image"),
    ("ligada al x recesiva", xlr_explanation_text, "XLR_image"),
    ("ligada al x dominante", xld_explanation_text, "XLD_image"),
    ("y-linked", ylinked_explanation_text, "Y_linked_image"),
    ("mitocondrial", mito_explanation_text, "Mito_image") ]

/-- Embeds `get_inheritance_explanation_and_image` (lines 232-292).
`genotype = none` models a Python `None` genotype. The fallback branch calls
`ask_llm_to_simplify`, which can raise (see its definition), hence `Except`. -/
def get_inheritance_explanation_and_image (api : LLMResult) (pattern_name : String)
    (genotype : Option String) : Except Unit (String × Option String) :=
  let pattern_key := pyLower (pyStrip pattern_name)
  let genotype_norm :=
    match genotype with
    | some g => if g ≠ "" then pyLower (pyStrip g) else ""
    | none => ""
  if containsSubstr pattern_key "autosómica recesiva" ∧ containsSubstr genotype_norm "homocigosis"
  then .ok (ar_homozygous_explanation_text, some "AR_image")
  else
    match explanations.find? (fun e => containsSubstr pattern_key e.1) with
    | some e => .ok (e.2.1, some e.2.2)
    | none => do
      let simplified_explanation ← ask_llm_to_simplify api
        ("Explica brevemente el patrón de herencia llamado \x27" ++ pattern_name ++ "\x27")
        "paciente"
      .ok ((if simplified_explanation ≠ "" then simplified_explanation
            else "Patrón de herencia: " ++ pattern_name ++ " (No se encontró explicación estándar)."),
           none)

/-- The process variables computed by `_determine_process_variables`
(lines 316-440), plus the `gene_info_text_cache` entry that
`_generate_section_content` later adds to the same mapping (line 546). -/
structure ProcessVariables where
  primary_finding_exists : Bool
  primary_finding_details : Option PyVal
  other_findings_list : List PyVal
  secondary_findings_list : List PyVal
  gene_info_text_cache : List (PyVal × String)
deriving Repr

/-- Embeds `_get_section_text` (lines 307-314): missing sections (and the
guarded non-string case) yield the empty string. The official report is
modelled as its section-id-to-text mapping. -/
def get_section_text (report_data : List (String × String)) (section_id : String) : String :=
  match report_data.find? (fun kv => kv.1 = section_id) with
  | some kv => kv.2
  | none => ""

/-- The determination question `q1` (line 322). -/
def q1 : String :=
  "¿El informe (especialmente en Resultados, Conclusiones o Interpretación/Anexo I) indica CLARAMENTE que se ha identificado una variante Patogénica (P) o Probablemente Patogénica (LP) que EXPLICA la clínica o fenotipo del paciente?"

/-- The section ids consulted for `primary_finding_exists` (line 324). -/
def sections_to_check_pfe (report_data : List (String × String)) : List (String × String) :=
  ["Resultados", "Conclusiones", "Interpretacion", "Anexo_I"].map
    (fun id => (id, get_section_text report_data id))

/-- The section ids consulted for `primary_finding_details` (line 336). -/
def sections_to_check_pfd (report_data : List (String × String)) : List (String × String) :=
  ["Interpretacion", "Anexo_I", "Conclusiones"].map
    (fun id => (id, get_section_text report_data id))

/-- The extraction criteria for the primary finding (line 337). -/
def primary_criteria : String :=
  "la variante clasificada como Patogénica (P) o Probablemente Patogénica (LP) que se describe como la causa principal de la clínica del paciente"

/-- Embeds step 1 of `_determine_process_variables` (lines 321-331): an
unknown determination defaults `primary_finding_exists` to `False`. -/
def resolve_primary_finding_exists (det_api : LLMResult)
    (report_data : List (String × String)) : Bool :=
  match (ask_llm_for_determination det_api (sections_to_check_pfe report_data) q1).1 with
  | none => false
  | some b => b

/-- Embeds step 2 of `_determine_process_variables` (lines 333-347): details
are only sought when the finding exists; a falsy extraction result is stored
as `None`. -/
def resolve_primary_finding_details (loads : String → Option PyVal) (extract_api : LLMResult)
    (report_data : List (String × String)) (primary_finding_exists : Bool) : Option PyVal :=
  if primary_finding_exists then
    ask_llm_to_extract_variant loads extract_api (sections_to_check_pfd report_data)
      primary_criteria
  else none

/-- Embeds the primary-duplicate check of the annex loop (lines 368-380):
match on Gene and cDNA, falling back to Gene and Protein when both sides lack
a (truthy) cDNA. -/
def is_primary_variant (primary_details : Option PyVal) (variant : PyVal) : Bool :=
  match primary_details with
  | none => false
  | some pd =>
    if truthy pd ∧ isDict variant ∧ isDict pd then
      (truthy (pyDictGet variant "Gen") && pyEq (pyDictGet variant "Gen") (pyDictGet pd "Gen") &&
       truthy (pyDictGet variant "CDNA") && pyEq (pyDictGet variant "CDNA") (pyDictGet pd "CDNA"))
      ||
      (!truthy (pyDictGet variant "CDNA") && !truthy (pyDictGet pd "CDNA") &&
       truthy (pyDictGet variant "Gen") && pyEq (pyDictGet variant "Gen") (pyDictGet pd "Gen") &&
       truthy (pyDictGet variant "Proteina") &&
       pyEq (pyDictGet variant "Proteina") (pyDictGet pd "Proteina"))
    else false

/-- Embeds the classification normalisation of the annex loop (lines 385-395):
the raw text is upper-cased and matched against substring markers, in order. -/
def normalizeClassification (raw : String) : String :=
  let classification_raw := pyUpper raw
  if containsSubstr classification_raw "VUS" ∨ containsSubstr classification_raw "SIGNIFICADO INCIERTO"
  then "VUS"
  else if containsSubstr classification_raw "PATOGÉNICA" ∨ containsSubstr classification_raw "PATHOGENIC"
  then
    if containsSubstr classification_raw "PROBABLEMENTE" ∨ containsSubstr classification_raw "LIKELY"
    then "LP" else "P"
  else "Desconocida"

/-- Embeds one iteration of the annex loop (lines 366-413): a primary
duplicate (or a non-dict item) contributes nothing; any other record gains
`Clasificacion_Norm` and `Tipo` and is appended. The `.upper()` call on a
non-string `Clasificacion` value raises `AttributeError` (`Except.error`). -/
def process_variant (primary_details : Option PyVal) (variant : PyVal) :
    Except Unit (Option PyVal) :=
  let is_primary := is_primary_variant primary_details variant
  if ¬is_primary ∧ isDict variant then
    match pyDictGetDefault variant "Clasificacion" (.vstr "") with
    | .vstr raw =>
      let classification := normalizeClassification raw
      let variant1 := pyDictSet variant "Clasificacion_Norm" (.vstr classification)
      let variant_type :=
        if classification = "VUS" then "VUS"
        else if classification = "P" ∨ classification = "LP" then "P_LP_NonPrimary"
        else "Desconocido"
      let variant2 := pyDictSet variant1 "Tipo" (.vstr variant_type)
      .ok (some variant2)
    | _ => .error ()
  else .ok none

/-- Embeds the whole annex loop (lines 366-413) over the extracted list,
preserving extraction order. -/
def other_findings_of (primary_details : Option PyVal) :
    List PyVal → Except Unit (List PyVal)
  | [] => .ok []
  | variant :: rest =>
    match process_variant primary_details variant with
    | .error e => .error e
    | .ok r =>
      match other_findings_of primary_details rest with
      | .error e => .error e
      | .ok tail => .ok (match r with | some v' => v' :: tail | none => tail)

/-- The annex extraction item description (line 358). -/
def annex_item_description : String :=
  "variantes genéticas listadas en la tabla o texto (incluyendo VUS, P, LP, etc.)"

/-- The annex extraction output keys (line 360). -/
def annex_output_keys : List String :=
  ["Gen", "Localizacion", "Transcrito", "CDNA", "Proteina", "Genotipo", "Clasificacion"]

/-- The secondary-findings extraction item description (line 430). -/
def secondary_item_description : String :=
  "hallazgos secundarios (variantes genéticas P/LP en genes específicos)"

/-- The secondary-findings extraction output keys (line 432). -/
def secondary_output_keys : List String :=
  ["Gen", "Variante", "Genotipo", "Clasificacion"]

/-- The oracle call outcomes consumed by one `_determine_process_variables`
run (one determination call, at most one single-record extraction, at most two
list extractions) plus the `json.loads` behaviour. -/
structure ResolverOracle where
  det : LLMResult
  extract : LLMResult
  annex : LLMResult
  secondary : LLMResult
  loads : String → Option PyVal

/-- Embeds step 3 of `_determine_process_variables` (lines 349-419): extract
every annex variant, then run the dedup/normalise loop; an empty annex section
yields the empty list with no oracle call. -/
def resolve_other_findings (o : ResolverOracle) (report_data : List (String × String))
    (primary_finding_details : Option PyVal) : Except Unit (List PyVal) :=
  let anexo1_text := get_section_text report_data "Anexo_I"
  if anexo1_text ≠ "" then
    other_findings_of primary_finding_details
      (ask_llm_to_extract_list o.loads o.annex anexo1_text annex_item_description
        annex_output_keys).1
  else .ok []

/-- Embeds step 4 of `_determine_process_variables` (lines 421-438): secondary
findings are extracted unless the section is empty or contains one of the
fixed negative-result phrases. -/
def resolve_secondary_findings (o : ResolverOracle)
    (report_data : List (String × String)) : List PyVal :=
  let hs_text := get_section_text report_data "Hallazgos_secundarios"
  if hs_text ≠ "" ∧ ¬containsSubstr (pyLower hs_text) "sin hallazgos" ∧
      ¬containsSubstr (pyLower hs_text) "no se identifican" then
    (ask_llm_to_extract_list o.loads o.secondary hs_text secondary_item_description
      secondary_output_keys).1
  else []

/-- Embeds `_determine_process_variables` (lines 316-440): the four process
variables, computed in order; only the annex loop can raise. -/
def determine_process_variables (o : ResolverOracle) (report_data : List (String × String)) :
    Except Unit ProcessVariables :=
  let primary_finding_exists := resolve_primary_finding_exists o.det report_data
  let primary_finding_details :=
    resolve_primary_finding_details o.loads o.extract report_data primary_finding_exists
  match resolve_other_findings o report_data primary_finding_details with
  | .error e => .error e
  | .ok other_findings_list =>
    .ok ⟨primary_finding_exists, primary_finding_details, other_findings_list,
         resolve_secondary_findings o report_data, []⟩

/-- A subsection definition from the rules document (consumed at
lines 503-505). -/
structure SubsectionDef where
  subsection_id : String
  title : String
deriving Repr

/-- The `conditional_logic` entry of a rule section (consumed at
lines 485-486 and 494-495): the `if_false`/`if_true` titles and the
`if_true` subsections (`.get('subsections', [])`). -/
structure CondLogic where
  if_false_title : String
  if_true_title : String
  subsections : List SubsectionDef
deriving Repr

/-- A section definition from the rules document (`simplified_report_sections`
items): id, title, optional `condition` expression, optional
`conditional_logic`. -/
structure RuleSection where
  section_id : String
  title : String
  condition : Option String
  conditional_logic : Option CondLogic
deriving Repr

/-- One entry of the simplified report (lines 576-579). -/
structure SectionEntry where
  title : String
  content : String
deriving Repr, DecidableEq

/-- The oracle call outcomes consumed by one `_generate_section_content`
run: the limitation simplification (case A), and the interpretation
simplification, two gene-info calls and the inheritance fallback
simplification (case B). -/
structure SectionOracle where
  limitations_simplify : LLMResult
  interpretation_simplify : LLMResult
  gene_info_a : LLMResult
  gene_info_b : LLMResult
  inh_fallback_simplify : LLMResult

/-- The fixed first paragraph of section 3 when no primary finding exists
(line 487). -/
def no_finding_sentence : String :=
  "El estudio genético realizado **no ha identificado variantes genéticas** (cambios en el ADN) que se clasifiquen actualmente como \x27Patogénicas\x27 o \x27Probablemente Patogénicas\x27 y que expliquen de forma concluyente los síntomas o características clínicas del paciente."

/-- The hardcoded limitations fallback sentence (line 489). -/
def default_limitations_text : String :=
  "Es importante saber que esta técnica tiene algunas limitaciones: no analiza absolutamente todo el ADN y hay ciertos tipos de cambios genéticos que no puede detectar bien. Por tanto, un resultado sin hallazgos no descarta al 100% que exista una causa genética."

/-- The degraded-state paragraph emitted when the primary finding exists but
its details could not be extracted (line 500). -/
def degraded_details_sentence : String :=
  "Se indicó la presencia de un hallazgo genético relevante, pero hubo dificultades técnicas para extraer o procesar los detalles específicos. Por favor, consulte con su médico para una interpretación completa."

/-- Models `details.get (key, 'N/A')` interpolated into an f-string. -/
def detailField (details : PyVal) (k : String) : String :=
  pyStr (pyDictGetDefault details k (.vstr "N/A"))

/-- The closed vocabulary of inheritance patterns (line 555). -/
def known_patterns : List String :=
  ["Autosómica Dominante", "Autosómica Recesiva", "Ligada al X Recesiva",
   "Ligada al X Dominante", "Y-linked", "Mitocondrial"]

/-- Embeds subsection 3.1 (lines 509-523): the variant identity, its
classification and genotype, and the simplified clinical relevance (with its
hardcoded fallback). -/
def subsection_31 (so : SectionOracle) (report_data : List (String × String))
    (details : PyVal) (content : List String) : Except Unit (List String) := do
  let variant_str :=
    "Gen: **" ++ detailField details "Gen" ++ "**, Notación ADNc: c." ++
    detailField details "CDNA" ++ ", Notación Proteína: p." ++ detailField details "Proteina"
  let content := content ++
    ["Se ha identificado la siguiente variante genética: " ++ variant_str ++ ".",
     "Una \x27variante genética\x27 es un cambio en la secuencia de nuestro ADN. Algunas no tienen efecto, otras pueden influir en la salud.",
     "**Clasificación:** Esta variante se ha clasificado como **" ++
       detailField details "Clasificacion" ++
       "**. Esto significa que es considerada (Probablemente) la causa de la condición clínica.",
     "**Genotipo:** Se encontró en **" ++ detailField details "Genotipo" ++
       "** (indica si en una o ambas copias del gen)."]
  let interpretacion_raw := get_section_text report_data "Interpretacion"
  let interpretacion_prompt :=
    "Del siguiente texto de interpretación, extrae y simplifica SOLO la parte que explica por qué la variante c." ++
    detailField details "CDNA" ++ " en el gen " ++ detailField details "Gen" ++
    " se considera relevante o causal para la clínica del paciente:\n\n" ++ interpretacion_raw
  let simplified_interpretation ← ask_llm_to_simplify so.interpretation_simplify
    interpretacion_prompt "paciente"
  .ok (content ++
    [if simplified_interpretation ≠ "" then
       "**Relevancia clínica (simplificada):** " ++ simplified_interpretation
     else
       "El informe técnico original detalla la evidencia científica que apoya la relación de esta variante con la clínica observada."])

/-- Embeds subsection 3.2 (lines 525-537): gene function and pathology out of
the gene-info answer (keeping only the `1.`/`2.` lines when present). -/
def subsection_32 (so : SectionOracle) (details : PyVal) (content : List String) :
    Except Unit (List String) := do
  let gene := pyDictGet details "Gen"
  if truthy gene then do
    let gene_info_text ← ask_llm_for_gene_info so.gene_info_a (pyStr gene)
      ("la condición clínica asociada a la variante c." ++ detailField details "CDNA")
    if gene_info_text ≠ "" then
      let parts := gene_info_text.splitOn "\n"
      let func_pat_info := String.intercalate "\n"
        (parts.filter (fun p => pyStartsWith (pyStrip p) "1." || pyStartsWith (pyStrip p) "2."))
      .ok (content ++ [if func_pat_info ≠ "" then func_pat_info else gene_info_text])
    else
      .ok (content ++
        ["El gen afectado es **" ++ pyStr gene ++
         "**. Consulte con su médico para detalles sobre su función y la patología asociada."])
  else
    .ok (content ++ ["No se pudo determinar claramente el gen asociado a la variante primaria."])

/-- Truthiness of an optional Python string (`None` and `""` are falsy). -/
def optStrTruthy : Option String → Bool
  | none => false
  | some s => s ≠ ""

/-- Cache lookup for the gene-info text (`.get (gene)` on the cache dict,
line 543). -/
def cacheGet (cache : List (PyVal × String)) (k : PyVal) : Option String :=
  (cache.find? (fun e => pyEq e.1 k)).map (fun e => e.2)

/-- Cache assignment (line 546). -/
def cacheSet : List (PyVal × String) → PyVal → String → List (PyVal × String)
  | [], k, v => [(k, v)]
  | (k', v') :: t, k, v =>
      if pyEq k' k then (k, v) :: t else (k', v') :: cacheSet t k v

/-- Embeds subsection 3.3 (lines 539-565): determine the inheritance pattern
from the (cached) gene-info answer and emit the knowledge-base explanation and
illustration placeholder. -/
def subsection_33 (so : SectionOracle) (details : PyVal) (pv : ProcessVariables)
    (content : List String) : Except Unit (List String × ProcessVariables) := do
  let gene := pyDictGet details "Gen"
  let cached := cacheGet pv.gene_info_text_cache gene
  let (gene_info_full, pv) ←
    if !(optStrTruthy cached) && truthy gene then do
      let gi ← ask_llm_for_gene_info so.gene_info_b (pyStr gene)
        ("la condición clínica asociada a la variante c." ++ detailField details "CDNA")
      Except.ok (some gi,
        { pv with gene_info_text_cache := cacheSet pv.gene_info_text_cache gene gi })
    else Except.ok (cached, pv)
  let inheritance_pattern :=
    match gene_info_full with
    | some gif =>
      if gif ≠ "" then
        let parts := gif.splitOn "\n"
        match parts.find? (fun p => pyStartsWith (pyStrip p) "3.") with
        | some pattern_line =>
          let pattern_name_raw := pyStrip (afterFirstColon pattern_line)
          match known_patterns.find?
              (fun p => containsSubstr (pyLower pattern_name_raw) (pyLower p)) with
          | some found_pattern => found_pattern
          | none => "Desconocido"
        | none => "Desconocido"
      else "Desconocido"
    | none => "Desconocido"
  let genotype : Option String :=
    match pyDictGet details "Genotipo" with
    | .vstr s => some s
    | _ => none
  let r ← get_inheritance_explanation_and_image so.inh_fallback_simplify inheritance_pattern
    genotype
  let content := content ++ [r.1]
  let content :=
    match r.2 with
    | some inh_image => if inh_image ≠ "" then
        content ++ ["[IMAGEN_PLACEHOLDER: " ++ inh_image ++ ".png]"]
      else content
    | none => content
  .ok (content, pv)

/-- Embeds the subsection loop of case B (lines 503-565): each subsection
first appends its bold title, then its specific content. Unknown subsection
ids contribute only their title. -/
def subsections_fold (so : SectionOracle) (report_data : List (String × String))
    (details : PyVal) : List SubsectionDef → List String → ProcessVariables →
    Except Unit (List String × ProcessVariables)
  | [], content, pv => .ok (content, pv)
  | sub_sec_def :: rest, content, pv => do
    let content := content ++ ["**" ++ sub_sec_def.title ++ "**"]
    let (content, pv) ←
      if sub_sec_def.subsection_id = "3.1_Variante_Genetica" then do
        let c ← subsection_31 so report_data details content
        Except.ok (c, pv)
      else if sub_sec_def.subsection_id = "3.2_Gen_Patologia" then do
        let c ← subsection_32 so details content
        Except.ok (c, pv)
      else if sub_sec_def.subsection_id = "3.3_Patron_Herencia" then
        subsection_33 so details pv content
      else Except.ok (content, pv)
    subsections_fold so report_data details rest content pv

/-- Embeds the `3_Resultado` body of `_generate_section_content`
(lines 474-568). Returns `none` for the early `return None` when the rules
document has no matching section definition; otherwise the produced title
(after line 568's strip-or-default), the content paragraphs, and the possibly
updated process variables. A missing `conditional_logic` key raises. -/
def section3_content (so : SectionOracle) (report_data : List (String × String))
    (rules : List RuleSection) (pv : ProcessVariables) (section_def : RuleSection) :
    Except Unit (Option (String × List String × ProcessVariables)) := do
  match rules.find? (fun s => s.section_id = section_def.section_id) with
  | none => .ok none
  | some rule_sec3 =>
    match rule_sec3.conditional_logic with
    | none => .error ()
    | some cl =>
      if ¬pv.primary_finding_exists then do
        -- CASO A: no primary finding
        let title := cl.if_false_title
        let limitations_text := get_section_text report_data "Limitaciones"
        let simplified_limitations ←
          if limitations_text ≠ "" then
            ask_llm_to_simplify so.limitations_simplify limitations_text
              "paciente recibiendo resultado negativo"
          else Except.ok default_limitations_text
        let content := [no_finding_sentence,
                        "**Limitaciones importantes:** " ++ simplified_limitations]
        .ok (some ((if title ≠ "" then pyStrip title else "Resultado"), content, pv))
      else do
        -- CASO B: primary finding present
        let title := cl.if_true_title
        match pv.primary_finding_details with
        | some details =>
          if truthy details then do
            let (content, pv) ← subsections_fold so report_data details cl.subsections [] pv
            .ok (some ((if title ≠ "" then pyStrip title else "Resultado"), content, pv))
          else
            .ok (some ((if title ≠ "" then pyStrip title else "Resultado"),
                       [degraded_details_sentence], pv))
        | none =>
          .ok (some ((if title ≠ "" then pyStrip title else "Resultado"),
                     [degraded_details_sentence], pv))

/-- Replace-or-append for the simplified-report mapping. -/
def setSectionEntry : List (String × SectionEntry) → String → SectionEntry →
    List (String × SectionEntry)
  | [], k, v => [(k, v)]
  | (k', v') :: t, k, v =>
      if k' = k then (k, v) :: t else (k', v') :: setSectionEntry t k v

/-- Embeds the final assembly of a section (lines 574-584): a non-empty
content list is joined (dropping empty paragraphs) and stored under the
section id; an empty content list stores nothing and yields `None`. -/
def assemble_section (simplified_report : List (String × SectionEntry))
    (section_id title : String) (content : List String) :
    Option SectionEntry × List (String × SectionEntry) :=
  if content.isEmpty then (none, simplified_report)
  else
    let final_content := String.intercalate "\n\n" (content.filter (fun p => p ≠ ""))
    let entry : SectionEntry := ⟨pyStrip title, final_content⟩
    (some entry, setSectionEntry simplified_report section_id entry)

/-- Embeds `_generate_section_content` (lines 443-584). `evalCond` models the
`eval` of a rule condition over the process variables (`none` models a raised
evaluation exception, which the source converts to `False`). The content
branch is an `elif` chained onto the `if 'condition' in section_def` test, so
a definition carrying a `condition` key never reaches content generation even
when its condition holds. -/
def generate_section_content (so : SectionOracle)
    (evalCond : String → ProcessVariables → Option Bool)
    (report_data : List (String × String)) (rules : List RuleSection)
    (pv : ProcessVariables) (simplified_report : List (String × SectionEntry))
    (section_def : RuleSection) :
    Except Unit (Option SectionEntry × List (String × SectionEntry) × ProcessVariables) :=
  match section_def.condition with
  | some cond =>
    let condition_met := (evalCond cond pv).getD false
    if ¬condition_met then .ok (none, simplified_report, pv)
    else
      -- condition met: the `elif section_id == '3_Resultado'` branch is
      -- skipped, so the assembly below sees an empty content list
      let (e, sr) := assemble_section simplified_report section_def.section_id
        section_def.title []
      .ok (e, sr, pv)
  | none =>
    if section_def.section_id = "3_Resultado" then do
      match ← section3_content so report_data rules pv section_def with
      | none => .ok (none, simplified_report, pv)
      | some (title, content, pv') =>
        let (e, sr) := assemble_section simplified_report section_def.section_id title content
        .ok (e, sr, pv')
    else
      let (e, sr) := assemble_section simplified_report section_def.section_id
        section_def.title []
      .ok (e, sr, pv)

/-- Iterates `_generate_section_content` over the rule-defined sections in
order (lines 599-602), threading the report mapping and process variables;
`sos i` is the oracle environment of the `i`-th section's calls. -/
def run_sections (sos : Nat → SectionOracle)
    (evalCond : String → ProcessVariables → Option Bool)
    (report_data : List (String × String)) (rules_all : List RuleSection) :
    Nat → ProcessVariables → List (String × SectionEntry) → List RuleSection →
    Except Unit (List (String × SectionEntry) × ProcessVariables)
  | _, pv, simplified_report, [] => .ok (simplified_report, pv)
  | i, pv, simplified_report, section_def :: rest => do
    let (_, sr, pv') ← generate_section_content (sos i) evalCond report_data rules_all pv
      simplified_report section_def
    run_sections sos evalCond report_data rules_all (i + 1) pv' sr rest

/-- Outcome of `generate_report` (lines 587-613): either the final section
mapping, or the structured error document produced when an exception escapes
the generation sequence (or when the rules document has no section list). -/
inductive ReportOutcome where
  | sections (out : List (String × SectionEntry))
  | errorDoc
deriving Repr, DecidableEq

/-- The accumulation part of `generate_report` (lines 590-602): resolve
process variables, then generate every section in order. -/
def generate_report_core (ro : ResolverOracle) (sos : Nat → SectionOracle)
    (evalCond : String → ProcessVariables → Option Bool)
    (report_data : List (String × String)) (rules : List RuleSection) :
    Except Unit (List (String × SectionEntry)) := do
  let pv ← determine_process_variables ro report_data
  if rules.isEmpty then .error ()   -- raise ValueError: no section definitions
  else do
    let (simplified_report, _) ← run_sections sos evalCond report_data rules 0 pv [] rules
    .ok simplified_report

/-- Embeds `generate_report` (lines 587-613): on success, only entries with
truthy content are kept (line 606); any escaping exception is caught and
converted into the structured error document. -/
def generate_report (ro : ResolverOracle) (sos : Nat → SectionOracle)
    (evalCond : String → ProcessVariables → Option Bool)
    (report_data : List (String × String)) (rules : List RuleSection) : ReportOutcome :=
  match generate_report_core ro sos evalCond report_data rules with
  | .ok simplified_report => .sections (simplified_report.filter (fun kv => kv.2.content ≠ ""))
  | .error _ => .errorDoc

/-- When every provided section text is empty, the concatenated context is
empty. -/
theorem build_context_of_all_empty (section_texts : List (String × String))
    (h : ∀ kv ∈ section_texts, kv.2 = "") : build_context section_texts = "" := by
  have hf : section_texts.filter (fun kv => kv.2 ≠ "") = [] := by
    rw [List.filter_eq_nil_iff]
    intro kv hkv
    simp [h kv hkv]
  unfold build_context
  rw [hf]
  rfl

/-- A successful resolver run stores exactly the step-1 and step-2 results in
the first two process variables. -/
theorem determine_ok_fields (o : ResolverOracle) (report_data : List (String × String))
    (pv : ProcessVariables) (h : determine_process_variables o report_data = .ok pv) :
    pv.primary_finding_exists = resolve_primary_finding_exists o.det report_data ∧
    pv.primary_finding_details = resolve_primary_finding_details o.loads o.extract report_data
      (resolve_primary_finding_exists o.det report_data) := by
  simp only [determine_process_variables] at h
  cases hof : resolve_other_findings o report_data
      (resolve_primary_finding_details o.loads o.extract report_data
        (resolve_primary_finding_exists o.det report_data)) with
  | error e => rw [hof] at h; cases h
  | ok l =>
    rw [hof] at h
    injection h with h
    subst h
    exact ⟨rfl, rfl⟩

/-- C2: `determineBoolean` (`ask_llm_for_determination`) returns unknown
(`None`) without raising when no non-empty section text is available, returns
unknown whenever the oracle's answer does not start (case-insensitively) with
the affirmative token `SÍ` or the negative token `NO`, and whenever the
determination is unknown the resolver sets `primary_finding_exists` to
`False`. -/
theorem C2_determination_unknown_defaults_false (api : LLMResult)
    (section_texts : List (String × String)) (question : String) :
    ((∀ kv ∈ section_texts, kv.2 = "") →
      ask_llm_for_determination api section_texts question = (none, some "Sin contexto")) ∧
    (∀ r, call_llm api = some r →
      pyStartsWith (pyUpper r) "SÍ" = false → pyStartsWith (pyUpper r) "NO" = false →
      (ask_llm_for_determination api section_texts question).1 = none) ∧
    (∀ (o : ResolverOracle) (report_data : List (String × String)),
      (ask_llm_for_determination o.det (sections_to_check_pfe report_data) q1).1 = none →
      resolve_primary_finding_exists o.det report_data = false ∧
      ∀ pv, determine_process_variables o report_data = .ok pv →
        pv.primary_finding_exists = false) := by
  refine ⟨?_, ?_, ?_⟩
  · intro h
    have hc := build_context_of_all_empty section_texts h
    simp [ask_llm_for_determination, hc]
  · intro r hr hsi hno
    by_cases hc : build_context section_texts = ""
    · simp [ask_llm_for_determination, hc]
    · by_cases hre : r = ""
      · subst hre
        simp [ask_llm_for_determination, hc, hr]
      · simp [ask_llm_for_determination, hc, hr, hre, hsi, hno]
  · intro o report_data h
    have hfe : resolve_primary_finding_exists o.det report_data = false := by
      unfold resolve_primary_finding_exists
      rw [h]
    refine ⟨hfe, ?_⟩
    intro pv hpv
    rw [(determine_ok_fields o report_data pv hpv).1, hfe]

/-- C2 witness: with an oracle answering ambiguously and a report whose
consulted sections are all empty, the determination is unknown and the
resolver defaults `primary_finding_exists` to `False`. -/
theorem C2_determination_unknown_defaults_false_witness :
    ask_llm_for_determination (.content (some "Quizás")) [("Resultados", "")] q1 =
      (none, some "Sin contexto") ∧
    (ask_llm_for_determination (.content (some "Quizás")) [("Resultados", "hay texto")] q1).1 =
      none ∧
    ∀ pv, determine_process_variables
        ⟨.content (some "Quizás"), .fail, .fail, .fail, fun _ => none⟩
        [("Resultados", "hay texto")] = .ok pv →
      pv.primary_finding_exists = false :=
  ⟨(C2_determination_unknown_defaults_false (.content (some "Quizás"))
      [("Resultados", "")] q1).1 (by decide),
   (C2_determination_unknown_defaults_false (.content (some "Quizás"))
      [("Resultados", "hay texto")] q1).2.1 "Quizás" rfl (by decide) (by decide),
   fun pv hpv =>
     ((C2_determination_unknown_defaults_false (.content (some "Quizás"))
        [("Resultados", "hay texto")] q1).2.2
        ⟨.content (some "Quizás"), .fail, .fail, .fail, fun _ => none⟩
        [("Resultados", "hay texto")] rfl).2 pv hpv⟩

/-- C3: the claim states `simplifyText` returns the empty string and does not
raise when the oracle call fails on non-empty input. The code contradicts
this: `ask_llm_to_simplify` logs `result[:100]` before its
`return result or ""`, and when `call_llm` has failed with `None` that slice
raises `TypeError`, which propagates to the caller. This theorem records the
actual behaviour (an escaping exception, modelled as `Except.error ()`). -/
theorem C3_simplify_raises_on_oracle_failure (technical_text target_audience : String)
    (h : technical_text ≠ "") :
    ask_llm_to_simplify .fail technical_text target_audience = .error () := by
  simp [ask_llm_to_simplify, call_llm, h]

/-- C3 witness: the failing input evaluated concretely. -/
theorem C3_simplify_raises_on_oracle_failure_witness :
    ask_llm_to_simplify .fail "texto técnico" "paciente sin conocimientos médicos" =
      .error () :=
  C3_simplify_raises_on_oracle_failure "texto técnico" "paciente sin conocimientos médicos"
    (by decide)

/-- Looking up the key just assigned finds the assigned value. -/
theorem dictFindEntry_setEntries_same (es : List (String × PyVal)) (k : String) (val : PyVal) :
    dictFindEntry (setEntries es k val) k = some val := by
  induction es with
  | nil => simp [setEntries, dictFindEntry]
  | cons e t ih =>
    obtain ⟨k', v'⟩ := e
    by_cases hk : k' = k
    · simp [setEntries, hk, dictFindEntry]
    · simp [setEntries, hk, dictFindEntry, ih]

/-- Assigning one key leaves lookups of a different key unchanged. -/
theorem dictFindEntry_setEntries_ne (es : List (String × PyVal)) (k1 k2 : String)
    (val : PyVal) (h : k1 ≠ k2) :
    dictFindEntry (setEntries es k1 val) k2 = dictFindEntry es k2 := by
  induction es with
  | nil => simp [setEntries, dictFindEntry, h]
  | cons e t ih =>
    obtain ⟨k', v'⟩ := e
    by_cases hk : k' = k1
    · subst hk
      simp [setEntries, dictFindEntry, h]
    · by_cases hk2 : k' = k2
      · subst hk2
        simp [setEntries, hk, dictFindEntry]
      · simp [setEntries, hk, dictFindEntry, hk2, ih]

/-- C4: the raw classification text of a non-primary annex record is
normalised by ordered substring checks on its upper-cased form: a VUS marker
(`VUS` or `SIGNIFICADO INCIERTO`) yields `VUS`; otherwise a pathogenic marker
(`PATOGÉNICA` or `PATHOGENIC`) together with a likely marker (`PROBABLEMENTE`
or `LIKELY`) yields `LP`; a pathogenic marker without a likely marker yields
`P`; any other text yields the unknown value (`Desconocida`); and the annex
loop stores exactly this normalisation in `Clasificacion_Norm`. -/
theorem C4_classification_normalization (raw : String) :
    ((containsSubstr (pyUpper raw) "VUS" = true ∨
      containsSubstr (pyUpper raw) "SIGNIFICADO INCIERTO" = true) →
      normalizeClassification raw = "VUS") ∧
    (containsSubstr (pyUpper raw) "VUS" = false →
     containsSubstr (pyUpper raw) "SIGNIFICADO INCIERTO" = false →
     (containsSubstr (pyUpper raw) "PATOGÉNICA" = true ∨
      containsSubstr (pyUpper raw) "PATHOGENIC" = true) →
     (containsSubstr (pyUpper raw) "PROBABLEMENTE" = true ∨
      containsSubstr (pyUpper raw) "LIKELY" = true) →
      normalizeClassification raw = "LP") ∧
    (containsSubstr (pyUpper raw) "VUS" = false →
     containsSubstr (pyUpper raw) "SIGNIFICADO INCIERTO" = false →
     (containsSubstr (pyUpper raw) "PATOGÉNICA" = true ∨
      containsSubstr (pyUpper raw) "PATHOGENIC" = true) →
     containsSubstr (pyUpper raw) "PROBABLEMENTE" = false →
     containsSubstr (pyUpper raw) "LIKELY" = false →
      normalizeClassification raw = "P") ∧
    (containsSubstr (pyUpper raw) "VUS" = false →
     containsSubstr (pyUpper raw) "SIGNIFICADO INCIERTO" = false →
     containsSubstr (pyUpper raw) "PATOGÉNICA" = false →
     containsSubstr (pyUpper raw) "PATHOGENIC" = false →
      normalizeClassification raw = "Desconocida") ∧
    (∀ (primary_details : Option PyVal) (variant : PyVal),
      is_primary_variant primary_details variant = false → isDict variant = true →
      pyDictGetDefault variant "Clasificacion" (.vstr "") = .vstr raw →
      ∃ v', process_variant primary_details variant = .ok (some v') ∧
        pyDictGet v' "Clasificacion_Norm" = .vstr (normalizeClassification raw)) := by
  refine ⟨?_, ?_, ?_, ?_, ?_⟩
  · intro h
    rcases h with h | h <;> simp [normalizeClassification, h]
  · intro h1 h2 h3 h4
    rcases h3 with h3 | h3 <;> rcases h4 with h4 | h4 <;>
      simp [normalizeClassification, h1, h2, h3, h4]
  · intro h1 h2 h3 h4 h5
    rcases h3 with h3 | h3 <;> simp [normalizeClassification, h1, h2, h3, h4, h5]
  · intro h1 h2 h3 h4
    simp [normalizeClassification, h1, h2, h3, h4]
  · intro primary_details variant hip hdict hcls
    cases variant with
    | vdict es =>
      refine ⟨pyDictSet (pyDictSet (.vdict es) "Clasificacion_Norm"
          (.vstr (normalizeClassification raw))) "Tipo"
          (.vstr (if normalizeClassification raw = "VUS" then "VUS"
                  else if normalizeClassification raw = "P" ∨ normalizeClassification raw = "LP"
                  then "P_LP_NonPrimary" else "Desconocido")), ?_, ?_⟩
      · unfold process_variant
        simp [hip, hcls, isDict]
      · simp [pyDictSet, pyDictGet,
          dictFindEntry_setEntries_ne _ "Tipo" "Clasificacion_Norm" _ (by decide),
          dictFindEntry_setEntries_same]
    | vnone => simp [isDict] at hdict
    | vbool b => simp [isDict] at hdict
    | vnum n => simp [isDict] at hdict
    | vstr s => simp [isDict] at hdict
    | vlist l => simp [isDict] at hdict

/-- C4 witness: the four normalisation cases and the stored
`Clasificacion_Norm` value, evaluated concretely. -/
theorem C4_classification_normalization_witness :
    normalizeClassification "Variante de Significado Incierto" = "VUS" ∧
    normalizeClassification "Probablemente Patogénica" = "LP" ∧
    normalizeClassification "Patogénica" = "P" ∧
    normalizeClassification "Benigna" = "Desconocida" ∧
    ∃ v', process_variant none (.vdict [("Gen", .vstr "TTN"), ("Clasificacion", .vstr "VUS")]) =
        .ok (some v') ∧
      pyDictGet v' "Clasificacion_Norm" = .vstr (normalizeClassification "VUS") :=
  ⟨(C4_classification_normalization "Variante de Significado Incierto").1 (Or.inr (by decide)),
   (C4_classification_normalization "Probablemente Patogénica").2.1 (by decide) (by decide)
     (Or.inl (by decide)) (Or.inl (by decide)),
   (C4_classification_normalization "Patogénica").2.2.1 (by decide) (by decide)
     (Or.inl (by decide)) (by decide) (by decide),
   (C4_classification_normalization "Benigna").2.2.2.1 (by decide) (by decide) (by decide)
     (by decide),
   (C4_classification_normalization "VUS").2.2.2.2 none
     (.vdict [("Gen", .vstr "TTN"), ("Clasificacion", .vstr "VUS")]) rfl rfl rfl⟩

/-- A record the loop drops contributes nothing to the other-findings list. -/
theorem other_findings_cons_none (primary_details : Option PyVal) (v : PyVal)
    (rest : List PyVal) (h : process_variant primary_details v = .ok none) :
    other_findings_of primary_details (v :: rest) = other_findings_of primary_details rest := by
  cases hr : other_findings_of primary_details rest <;>
    simp [other_findings_of, h, hr]

/-- A record the loop keeps is prepended to the rest's other-findings list. -/
theorem other_findings_cons_some (primary_details : Option PyVal) (v v' : PyVal)
    (rest : List PyVal) (h : process_variant primary_details v = .ok (some v')) :
    other_findings_of primary_details (v :: rest) =
      (other_findings_of primary_details rest).map (fun tail => v' :: tail) := by
  cases hr : other_findings_of primary_details rest <;>
    simp [other_findings_of, h, hr, Except.map]

/-- C1: given a present primary finding record, an annex record whose (truthy)
`Gen` and `CDNA` equal the primary's is excluded from the other-findings list
regardless of its classification; when both sides lack a truthy `CDNA`, the
exclusion instead uses equality of (truthy) `Gen` and `Proteina`; and a record
differing in `Gen`, or differing in `CDNA` while either side has one, is
retained. -/
theorem C1_other_findings_dedup (pd v : PyVal) (hpd_dict : isDict pd = true)
    (hpd_truthy : truthy pd = true) (hv_dict : isDict v = true) :
    ((truthy (pyDictGet v "Gen") = true ∧
      pyEq (pyDictGet v "Gen") (pyDictGet pd "Gen") = true ∧
      truthy (pyDictGet v "CDNA") = true ∧
      pyEq (pyDictGet v "CDNA") (pyDictGet pd "CDNA") = true) →
      ∀ rest, other_findings_of (some pd) (v :: rest) = other_findings_of (some pd) rest) ∧
    ((truthy (pyDictGet v "CDNA") = false ∧ truthy (pyDictGet pd "CDNA") = false ∧
      truthy (pyDictGet v "Gen") = true ∧
      pyEq (pyDictGet v "Gen") (pyDictGet pd "Gen") = true ∧
      truthy (pyDictGet v "Proteina") = true ∧
      pyEq (pyDictGet v "Proteina") (pyDictGet pd "Proteina") = true) →
      ∀ rest, other_findings_of (some pd) (v :: rest) = other_findings_of (some pd) rest) ∧
    ((pyEq (pyDictGet v "Gen") (pyDictGet pd "Gen") = false ∨
      (pyEq (pyDictGet v "CDNA") (pyDictGet pd "CDNA") = false ∧
       (truthy (pyDictGet v "CDNA") = true ∨ truthy (pyDictGet pd "CDNA") = true))) →
      ∀ raw, pyDictGetDefault v "Clasificacion" (.vstr "") = .vstr raw →
      ∃ v', process_variant (some pd) v = .ok (some v') ∧
        ∀ rest, other_findings_of (some pd) (v :: rest) =
          (other_findings_of (some pd) rest).map (fun tail => v' :: tail)) := by
  refine ⟨?_, ?_, ?_⟩
  · intro h rest
    have hb1 : is_primary_variant (some pd) v = true := by
      unfold is_primary_variant
      simp [hpd_truthy, hpd_dict, hv_dict, h.1, h.2.1, h.2.2.1, h.2.2.2]
    have hproc : process_variant (some pd) v = .ok none := by
      unfold process_variant
      simp [hb1]
    exact other_findings_cons_none _ _ _ hproc
  · intro h rest
    have hb1 : is_primary_variant (some pd) v = true := by
      unfold is_primary_variant
      simp [hpd_truthy, hpd_dict, hv_dict, h.1, h.2.1, h.2.2.1, h.2.2.2.1, h.2.2.2.2.1,
        h.2.2.2.2.2]
    have hproc : process_variant (some pd) v = .ok none := by
      unfold process_variant
      simp [hb1]
    exact other_findings_cons_none _ _ _ hproc
  · intro h raw hcls
    have hb0 : is_primary_variant (some pd) v = false := by
      unfold is_primary_variant
      rcases h with hg | ⟨hcd, hct⟩
      · simp [hg]
      · rcases hct with hvt | hpt
        · simp [hcd, hvt]
        · simp [hcd, hpt]
    have hex : ∃ v', process_variant (some pd) v = .ok (some v') := by
      unfold process_variant
      simp [hb0, hv_dict, hcls]
    obtain ⟨v', hv'⟩ := hex
    exact ⟨v', hv', fun rest => other_findings_cons_some _ _ _ _ hv'⟩

/-- C1 witness: a primary BRCA1 record excludes the matching annex record
(even with a different classification) and retains a TTN record; a
cDNA-less pair is excluded through the protein fallback. -/
theorem C1_other_findings_dedup_witness :
    (other_findings_of
      (some (.vdict [("Gen", .vstr "BRCA1"), ("CDNA", .vstr "123A>G"),
        ("Proteina", .vstr "p.Gln1111Ter")]))
      [.vdict [("Gen", .vstr "BRCA1"), ("CDNA", .vstr "123A>G"),
        ("Clasificacion", .vstr "VUS")]] =
     other_findings_of
      (some (.vdict [("Gen", .vstr "BRCA1"), ("CDNA", .vstr "123A>G"),
        ("Proteina", .vstr "p.Gln1111Ter")])) []) ∧
    (other_findings_of
      (some (.vdict [("Gen", .vstr "MYH7"), ("Proteina", .vstr "p.Arg403Gln")]))
      [.vdict [("Gen", .vstr "MYH7"), ("Proteina", .vstr "p.Arg403Gln")]] =
     other_findings_of
      (some (.vdict [("Gen", .vstr "MYH7"), ("Proteina", .vstr "p.Arg403Gln")])) []) ∧
    ∃ v', process_variant
        (some (.vdict [("Gen", .vstr "BRCA1"), ("CDNA", .vstr "123A>G"),
          ("Proteina", .vstr "p.Gln1111Ter")]))
        (.vdict [("Gen", .vstr "TTN"), ("CDNA", .vstr "55G>A"),
          ("Clasificacion", .vstr "VUS")]) = .ok (some v') :=
  ⟨(C1_other_findings_dedup
      (.vdict [("Gen", .vstr "BRCA1"), ("CDNA", .vstr "123A>G"),
        ("Proteina", .vstr "p.Gln1111Ter")])
      (.vdict [("Gen", .vstr "BRCA1"), ("CDNA", .vstr "123A>G"),
        ("Clasificacion", .vstr "VUS")]) rfl rfl rfl).1 ⟨rfl, rfl, rfl, rfl⟩ [],
   (C1_other_findings_dedup
      (.vdict [("Gen", .vstr "MYH7"), ("Proteina", .vstr "p.Arg403Gln")])
      (.vdict [("Gen", .vstr "MYH7"), ("Proteina", .vstr "p.Arg403Gln")])
      rfl rfl rfl).2.1 ⟨rfl, rfl, rfl, rfl, rfl, rfl⟩ [],
   ((C1_other_findings_dedup
      (.vdict [("Gen", .vstr "BRCA1"), ("CDNA", .vstr "123A>G"),
        ("Proteina", .vstr "p.Gln1111Ter")])
      (.vdict [("Gen", .vstr "TTN"), ("CDNA", .vstr "55G>A"),
        ("Clasificacion", .vstr "VUS")]) rfl rfl rfl).2.2
      (Or.inl rfl) "VUS" rfl).imp (fun _ hh => hh.1)⟩

/-- C5: for every oracle response to `ask_llm_to_extract_variant`, a response
without a `\x7b`...`\x7d` span yields an absent result; a span parsing to a
non-empty object missing any of the five mandatory keys is discarded whole (no
partial record); and a span parsing to the empty object also yields absent. -/
theorem C5_extract_variant_absent_cases (loads : String → Option PyVal) (api : LLMResult)
    (section_texts : List (String × String)) (criteria_description : String) (r : String)
    (hr : call_llm api = some r) :
    ((strFind r '\x7b' = -1 ∨ strRFind r '\x7d' = -1) →
      ask_llm_to_extract_variant loads api section_texts criteria_description = none) ∧
    (∀ entries, loads (strSlice r (strFind r '\x7b').toNat (strRFind r '\x7d' + 1).toNat) =
        some (.vdict entries) → entries ≠ [] →
      (∃ k ∈ mandatory_variant_keys, pyContains (.vdict entries) k = false) →
      ask_llm_to_extract_variant loads api section_texts criteria_description = none) ∧
    (loads (strSlice r (strFind r '\x7b').toNat (strRFind r '\x7d' + 1).toNat) =
        some (.vdict []) →
      ask_llm_to_extract_variant loads api section_texts criteria_description = none) := by
  by_cases hc : build_context section_texts = ""
  · exact ⟨fun _ => by simp [ask_llm_to_extract_variant, hc],
      fun _ _ _ _ => by simp [ask_llm_to_extract_variant, hc],
      fun _ => by simp [ask_llm_to_extract_variant, hc]⟩
  · by_cases hre : r = ""
    · subst hre
      exact ⟨fun _ => by simp [ask_llm_to_extract_variant, hc, hr],
        fun _ _ _ _ => by simp [ask_llm_to_extract_variant, hc, hr],
        fun _ => by simp [ask_llm_to_extract_variant, hc, hr]⟩
    · refine ⟨?_, ?_, ?_⟩
      · intro hspan
        rcases hspan with hs | hs
        · simp [ask_llm_to_extract_variant, hc, hr, hre, hs]
        · have he : strRFind r '\x7d' + 1 = 0 := by rw [hs]; decide
          simp [ask_llm_to_extract_variant, hc, hr, hre, he]
      · intro entries hload hne hmiss
        by_cases hs1 : strFind r '\x7b' = -1
        · simp [ask_llm_to_extract_variant, hc, hr, hre, hs1]
        · by_cases hs2 : strRFind r '\x7d' + 1 = 0
          · simp [ask_llm_to_extract_variant, hc, hr, hre, hs2]
          · have hall : (mandatory_variant_keys.all
                (fun k => pyContains (.vdict entries) k)) = false := by
              obtain ⟨k, hk, hkc⟩ := hmiss
              rw [List.all_eq_false]
              exact ⟨k, hk, by simp [hkc]⟩
            have htr : truthy (.vdict entries) = true := by
              simp [truthy, hne]
            simp [ask_llm_to_extract_variant, hc, hr, hre, hs1, hs2, hload, hall, htr]
      · intro hload
        by_cases hs1 : strFind r '\x7b' = -1
        · simp [ask_llm_to_extract_variant, hc, hr, hre, hs1]
        · by_cases hs2 : strRFind r '\x7d' + 1 = 0
          · simp [ask_llm_to_extract_variant, hc, hr, hre, hs2]
          · simp [ask_llm_to_extract_variant, hc, hr, hre, hs1, hs2, hload, truthy]

/-- C5 witness: a span-less response, a span missing mandatory keys, and an
empty-object span, each evaluated concretely. -/
theorem C5_extract_variant_absent_cases_witness :
    ask_llm_to_extract_variant (fun _ => none) (.content (some "sin json"))
      [("Interpretacion", "texto")] "criterio" = none ∧
    ask_llm_to_extract_variant (fun _ => some (.vdict [("Gen", .vstr "BRCA1")]))
      (.content (some "\x7bGen\x7d")) [("Interpretacion", "texto")] "criterio" = none ∧
    ask_llm_to_extract_variant (fun _ => some (.vdict []))
      (.content (some "\x7b\x7d")) [("Interpretacion", "texto")] "criterio" = none :=
  ⟨(C5_extract_variant_absent_cases (fun _ => none) (.content (some "sin json"))
      [("Interpretacion", "texto")] "criterio" "sin json" rfl).1 (Or.inl (by decide)),
   (C5_extract_variant_absent_cases (fun _ => some (.vdict [("Gen", .vstr "BRCA1")]))
      (.content (some "\x7bGen\x7d")) [("Interpretacion", "texto")] "criterio"
      "\x7bGen\x7d" rfl).2.1 [("Gen", .vstr "BRCA1")] rfl (List.cons_ne_nil _ _)
      ⟨"CDNA", by decide, rfl⟩,
   (C5_extract_variant_absent_cases (fun _ => some (.vdict []))
      (.content (some "\x7b\x7d")) [("Interpretacion", "texto")] "criterio"
      "\x7b\x7d" rfl).2.2 rfl⟩

/-- C6: `ask_llm_to_extract_list` always yields a sequence and degrades to the
empty one in every failure case: empty input text yields `[]` without
consulting the oracle; a span-less response equal (after stripping) to the
empty-object marker yields `[]`; any other span-less response yields `[]`; and
a parsed payload that is not a list yields `[]`. -/
theorem C6_extract_list_empty_cases (loads : String → Option PyVal) (api : LLMResult)
    (section_text item_description : String) (output_format_keys : List String) :
    (section_text = "" →
      ask_llm_to_extract_list loads api section_text item_description output_format_keys =
        ([], false)) ∧
    (∀ r, call_llm api = some r →
      (strFind r '[' = -1 ∨ strRFind r ']' = -1) → pyStrip r = "\x7b\x7d" →
      (ask_llm_to_extract_list loads api section_text item_description output_format_keys).1 =
        []) ∧
    (∀ r, call_llm api = some r →
      (strFind r '[' = -1 ∨ strRFind r ']' = -1) →
      (ask_llm_to_extract_list loads api section_text item_description output_format_keys).1 =
        []) ∧
    (∀ r v, call_llm api = some r →
      loads (strSlice r (strFind r '[').toNat (strRFind r ']' + 1).toNat) = some v →
      isList v = false →
      (ask_llm_to_extract_list loads api section_text item_description output_format_keys).1 =
        []) := by
  refine ⟨fun h => by simp [ask_llm_to_extract_list, h], ?_, ?_, ?_⟩
  · intro r hr hspan _hmark
    by_cases ht : section_text = ""
    · simp [ask_llm_to_extract_list, ht]
    · by_cases hre : r = ""
      · subst hre
        simp [ask_llm_to_extract_list, ht, hr]
      · rcases hspan with hs | hs
        · by_cases hm : pyStrip r = "\x7b\x7d" <;>
            simp [ask_llm_to_extract_list, ht, hr, hre, hs, hm]
        · have he : strRFind r ']' + 1 = 0 := by rw [hs]; decide
          by_cases hm : pyStrip r = "\x7b\x7d" <;>
            simp [ask_llm_to_extract_list, ht, hr, hre, he, hm]
  · intro r hr hspan
    by_cases ht : section_text = ""
    · simp [ask_llm_to_extract_list, ht]
    · by_cases hre : r = ""
      · subst hre
        simp [ask_llm_to_extract_list, ht, hr]
      · rcases hspan with hs | hs
        · by_cases hm : pyStrip r = "\x7b\x7d" <;>
            simp [ask_llm_to_extract_list, ht, hr, hre, hs, hm]
        · have he : strRFind r ']' + 1 = 0 := by rw [hs]; decide
          by_cases hm : pyStrip r = "\x7b\x7d" <;>
            simp [ask_llm_to_extract_list, ht, hr, hre, he, hm]
  · intro r v hr hload hnl
    by_cases ht : section_text = ""
    · simp [ask_llm_to_extract_list, ht]
    · by_cases hre : r = ""
      · subst hre
        simp [ask_llm_to_extract_list, ht, hr]
      · by_cases hs1 : strFind r '[' = -1
        · by_cases hm : pyStrip r = "\x7b\x7d" <;>
            simp [ask_llm_to_extract_list, ht, hr, hre, hs1, hm]
        · by_cases hs2 : strRFind r ']' + 1 = 0
          · by_cases hm : pyStrip r = "\x7b\x7d" <;>
              simp [ask_llm_to_extract_list, ht, hr, hre, hs2, hm]
          · cases v with
            | vlist l => simp [isList] at hnl
            | vnone => simp [ask_llm_to_extract_list, ht, hr, hre, hs1, hs2, hload]
            | vbool b => simp [ask_llm_to_extract_list, ht, hr, hre, hs1, hs2, hload]
            | vnum n => simp [ask_llm_to_extract_list, ht, hr, hre, hs1, hs2, hload]
            | vstr s => simp [ask_llm_to_extract_list, ht, hr, hre, hs1, hs2, hload]
            | vdict es => simp [ask_llm_to_extract_list, ht, hr, hre, hs1, hs2, hload]

/-- C6 witness: the four degradation cases evaluated concretely. -/
theorem C6_extract_list_empty_cases_witness :
    ask_llm_to_extract_list (fun _ => none) .fail "" "descripcion" [] = ([], false) ∧
    (ask_llm_to_extract_list (fun _ => none) (.content (some " \x7b\x7d "))
      "texto" "descripcion" []).1 = [] ∧
    (ask_llm_to_extract_list (fun _ => none) (.content (some "sin lista"))
      "texto" "descripcion" []).1 = [] ∧
    (ask_llm_to_extract_list (fun _ => some (.vdict [("Gen", .vstr "B")]))
      (.content (some "[x]")) "texto" "descripcion" []).1 = [] :=
  ⟨(C6_extract_list_empty_cases (fun _ => none) .fail "" "descripcion" []).1 rfl,
   (C6_extract_list_empty_cases (fun _ => none) (.content (some " \x7b\x7d "))
      "texto" "descripcion" []).2.1 "\x7b\x7d" rfl (Or.inl (by decide)) (by decide),
   (C6_extract_list_empty_cases (fun _ => none) (.content (some "sin lista"))
      "texto" "descripcion" []).2.2.1 "sin lista" rfl (Or.inl (by decide)),
   (C6_extract_list_empty_cases (fun _ => some (.vdict [("Gen", .vstr "B")]))
      (.content (some "[x]")) "texto" "descripcion" []).2.2.2 "[x]"
      (.vdict [("Gen", .vstr "B")]) rfl rfl rfl⟩

/-- C7: after the resolver runs, `primary_finding_details` is non-absent only
if `primary_finding_exists` is true; and when the determination is affirmative
but the single-record extraction came back absent, the details are explicitly
stored as `None` and resolution still completes (shown for the no-annex case,
where nothing after step 2 can raise). -/
theorem C7_primary_details_invariant (o : ResolverOracle)
    (report_data : List (String × String)) :
    (∀ pv, determine_process_variables o report_data = .ok pv →
      pv.primary_finding_details ≠ none → pv.primary_finding_exists = true) ∧
    ((ask_llm_for_determination o.det (sections_to_check_pfe report_data) q1).1 = some true →
     ask_llm_to_extract_variant o.loads o.extract (sections_to_check_pfd report_data)
       primary_criteria = none →
     (∀ pv, determine_process_variables o report_data = .ok pv →
        pv.primary_finding_exists = true ∧ pv.primary_finding_details = none) ∧
     (get_section_text report_data "Anexo_I" = "" →
        ∃ pv, determine_process_variables o report_data = .ok pv ∧
          pv.primary_finding_exists = true ∧ pv.primary_finding_details = none)) := by
  constructor
  · intro pv hpv hne
    obtain ⟨h1, h2⟩ := determine_ok_fields o report_data pv hpv
    cases hb : resolve_primary_finding_exists o.det report_data with
    | false =>
      rw [hb] at h2
      simp [resolve_primary_finding_details] at h2
      exact absurd h2 hne
    | true => rw [h1, hb]
  · intro hdet hext
    have hfe : resolve_primary_finding_exists o.det report_data = true := by
      unfold resolve_primary_finding_exists
      rw [hdet]
    have hd : resolve_primary_finding_details o.loads o.extract report_data true = none := by
      unfold resolve_primary_finding_details
      simp [hext]
    constructor
    · intro pv hpv
      obtain ⟨h1, h2⟩ := determine_ok_fields o report_data pv hpv
      rw [hfe] at h1 h2
      rw [hd] at h2
      exact ⟨h1, h2⟩
    · intro hanex
      have hof : resolve_other_findings o report_data none = .ok [] := by
        unfold resolve_other_findings
        simp [hanex]
      refine ⟨⟨true, none, [], resolve_secondary_findings o report_data, []⟩, ?_, rfl, rfl⟩
      simp [determine_process_variables, hfe, hd, hof]

/-- C7 witness: an affirmative determination with no extractable details over
an annex-less report resolves successfully with absent details. -/
theorem C7_primary_details_invariant_witness :
    ∃ pv, determine_process_variables
        ⟨.content (some "SÍ, claro"), .fail, .fail, .fail, fun _ => none⟩
        [("Resultados", "hay variante patogénica")] = .ok pv ∧
      pv.primary_finding_exists = true ∧ pv.primary_finding_details = none :=
  ((C7_primary_details_invariant
      ⟨.content (some "SÍ, claro"), .fail, .fail, .fail, fun _ => none⟩
      [("Resultados", "hay variante patogénica")]).2 rfl rfl).2 rfl

/-- C8: when the normalised pattern name contains the Autosomal Recessive
canonical key and the genotype text (normalised the same way) contains the
homozygosity marker, the lookup returns the distinct homozygous-specific
explanation with the same illustration reference (`AR_image`) as plain
Autosomal Recessive, taking precedence over the ordinary canonical-key
lookup (whose result for plain Autosomal Recessive is also shown). -/
theorem C8_inheritance_homozygous_special_case (api : LLMResult) (pattern_name g : String)
    (h1 : containsSubstr (pyLower (pyStrip pattern_name)) "autosómica recesiva" = true)
    (h2 : containsSubstr (pyLower (pyStrip g)) "homocigosis" = true) :
    get_inheritance_explanation_and_image api pattern_name (some g) =
      .ok (ar_homozygous_explanation_text, some "AR_image") ∧
    get_inheritance_explanation_and_image api "Autosómica Recesiva" (some "") =
      .ok (ar_explanation_text, some "AR_image") ∧
    ar_homozygous_explanation_text ≠ ar_explanation_text := by
  have hg : g ≠ "" := by
    intro he
    subst he
    exact absurd h2 (by decide)
  refine ⟨?_, rfl, by decide⟩
  unfold get_inheritance_explanation_and_image
  simp [hg, h1, h2]

/-- C8 witness: the special case evaluated at a concrete pattern and
genotype. -/
theorem C8_inheritance_homozygous_special_case_witness :
    get_inheritance_explanation_and_image .fail "Autosómica Recesiva"
      (some "Detectada en Homocigosis") =
      .ok (ar_homozygous_explanation_text, some "AR_image") :=
  (C8_inheritance_homozygous_special_case .fail "Autosómica Recesiva"
    "Detectada en Homocigosis" (by decide) (by decide)).1

/-- C9: a section whose generation produced zero content paragraphs is omitted
entirely from the output mapping (the assembly stores nothing and leaves the
mapping unchanged), and the final report filter guarantees the emitted
document never contains an entry with empty content. -/
theorem C9_no_empty_sections_in_output :
    (∀ (simplified_report : List (String × SectionEntry)) (section_id title : String),
      assemble_section simplified_report section_id title [] = (none, simplified_report)) ∧
    (∀ (ro : ResolverOracle) (sos : Nat → SectionOracle)
       (evalCond : String → ProcessVariables → Option Bool)
       (report_data : List (String × String)) (rules : List RuleSection)
       (out : List (String × SectionEntry)),
      generate_report ro sos evalCond report_data rules = .sections out →
      ∀ kv ∈ out, kv.2.content ≠ "") := by
  constructor
  · intro simplified_report section_id title
    rfl
  · intro ro sos evalCond report_data rules out hout kv hkv
    unfold generate_report at hout
    cases hcore : generate_report_core ro sos evalCond report_data rules with
    | error e => rw [hcore] at hout; cases hout
    | ok sr =>
      rw [hcore] at hout
      injection hout with hout
      subst hout
      simpa using List.of_mem_filter hkv

/-- C9 witness: a complete run that emits no section, where the filter
property holds vacuously, plus the zero-paragraph assembly case. -/
theorem C9_no_empty_sections_in_output_witness :
    generate_report ⟨.fail, .fail, .fail, .fail, fun _ => none⟩
      (fun _ => ⟨.fail, .fail, .fail, .fail, .fail⟩) (fun _ _ => some false) []
      [⟨"A", "T", none, none⟩] = .sections [] ∧
    (∀ kv ∈ ([] : List (String × SectionEntry)), kv.2.content ≠ "") ∧
    assemble_section [] "A" "T" [] = (none, []) :=
  ⟨rfl,
   C9_no_empty_sections_in_output.2 ⟨.fail, .fail, .fail, .fail, fun _ => none⟩
     (fun _ => ⟨.fail, .fail, .fail, .fail, .fail⟩) (fun _ _ => some false) []
     [⟨"A", "T", none, none⟩] [] rfl,
   C9_no_empty_sections_in_output.1 [] "A" "T"⟩

/-- Concrete section oracle for the C10 reachability conjunct (all calls
fail; the reachable branch consults no oracle). -/
def c10_oracle : SectionOracle := ⟨.fail, .fail, .fail, .fail, .fail⟩

/-- Concrete process variables for the C10 reachability conjunct. -/
def c10_pv : ProcessVariables := ⟨false, none, [], [], []⟩

/-- Concrete condition-less `3_Resultado` rule definition for the C10
reachability conjunct. -/
def c10_rule3 : RuleSection :=
  ⟨"3_Resultado", "Resultado", none,
   some ⟨"Resultado del Estudio: Sin Hallazgos Concluyentes",
         "Resultado del Estudio: Hallazgo Genético Relevante", []⟩⟩

/-- C10: a section definition carrying a `condition` key generates no content
and adds no entry even when the condition evaluates to true, because the
content dispatch is an `elif` chained onto the condition test; a
condition-less definition whose id differs from `3_Resultado` likewise adds
nothing; and content generation is reachable for a condition-less
`3_Resultado` definition (shown concretely). -/
theorem C10_condition_sections_generate_no_content :
    (∀ (so : SectionOracle) (evalCond : String → ProcessVariables → Option Bool)
       (report_data : List (String × String)) (rules : List RuleSection)
       (pv : ProcessVariables) (simplified_report : List (String × SectionEntry))
       (section_def : RuleSection) (cond : String),
      section_def.condition = some cond → evalCond cond pv = some true →
      generate_section_content so evalCond report_data rules pv simplified_report
        section_def = .ok (none, simplified_report, pv)) ∧
    (∀ (so : SectionOracle) (evalCond : String → ProcessVariables → Option Bool)
       (report_data : List (String × String)) (rules : List RuleSection)
       (pv : ProcessVariables) (simplified_report : List (String × SectionEntry))
       (section_def : RuleSection),
      section_def.condition = none → section_def.section_id ≠ "3_Resultado" →
      generate_section_content so evalCond report_data rules pv simplified_report
        section_def = .ok (none, simplified_report, pv)) ∧
    (∃ e, generate_section_content c10_oracle (fun _ _ => none) [] [c10_rule3] c10_pv []
        c10_rule3 = .ok (some e, [("3_Resultado", e)], c10_pv) ∧ e.content ≠ "") := by
  refine ⟨?_, ?_, ?_⟩
  · intro so evalCond report_data rules pv simplified_report section_def cond hcond hec
    simp [generate_section_content, hcond, hec, assemble_section]
  · intro so evalCond report_data rules pv simplified_report section_def hcond hid
    simp [generate_section_content, hcond, hid, assemble_section]
  · exact ⟨_, rfl, by decide⟩

/-- C10 witness: a conditioned section definition whose condition evaluates to
true still yields no entry. -/
theorem C10_condition_sections_generate_no_content_witness :
    generate_section_content c10_oracle (fun _ _ => some true) [] [] c10_pv []
      ⟨"5_Otros_Hallazgos", "Otros Hallazgos Genéticos",
       some "len(other_findings_list) > 0", none⟩ = .ok (none, [], c10_pv) :=
  C10_condition_sections_generate_no_content.1 c10_oracle (fun _ _ => some true) [] []
    c10_pv []
    ⟨"5_Otros_Hallazgos", "Otros Hallazgos Genéticos",
     some "len(other_findings_list) > 0", none⟩
    "len(other_findings_list) > 0" rfl rfl
